import Mathlib

/-!
Verification of the ECS task-definition generation pipeline
(`scripts/task_def/` in delivops/ecs-deploy-action).

The Python sources are shallowly embedded as executable Lean definitions:
YAML documents become typed structures (an absent key is represented by the
documented default, or by `Option.none` when presence matters), Python
exceptions become `Except String`, and the external AWS Secrets Manager
lookups (which the secret resolver performs through `boto3`) are abstracted
as a `SecretOracle` of total functions, matching the source's behaviour of
never letting a lookup raise (every failure degrades to mock data).
-/

namespace ECSDeploy

/-- A scalar YAML value, as converted by Python `str(value)` when building
environment variables (`generator.py` line 104). -/
inductive PyVal where
  | s (v : String)
  | i (v : Int)
  | b (v : Bool)
deriving Repr, DecidableEq

/-- Python `str()` on a scalar YAML value. -/
def pyStr : PyVal → String
  | .s v => v
  | .i v => toString v
  | .b v => if v then "True" else "False"

/-!
Python string primitives, implemented by structural recursion over the
underlying character list (so that concrete runs reduce inside the
kernel). Every separator used by the source is a single character.
-/

/-- Python `c in s` for a single character. -/
def pyContains (s : String) (c : Char) : Bool := s.data.contains c

/-- Python `s.upper()`. -/
def pyUpper (s : String) : String := String.mk (s.data.map Char.toUpper)

/-- Python `s.lower()`. -/
def pyLower (s : String) : String := String.mk (s.data.map Char.toLower)

/-- Python `s.strip()` (no argument: strip whitespace from both ends). -/
def pyTrim (s : String) : String :=
  String.mk (((s.data.dropWhile Char.isWhitespace).reverse.dropWhile
    Char.isWhitespace).reverse)

/-- Python `s.strip(chars)` for a single strip character. -/
def pyStripChar (s : String) (c : Char) : String :=
  String.mk (((s.data.dropWhile (· = c)).reverse.dropWhile (· = c)).reverse)

/-- Python `s.replace(old, new)` for single characters. -/
def pyReplaceChar (s : String) (old new : Char) : String :=
  String.mk (s.data.map (fun x => if x = old then new else x))

/-- Splitting a character list on a separator character, Python
`split`-style: always at least one (possibly empty) part. -/
def splitCharList (sep : Char) : List Char → List (List Char)
  | [] => [[]]
  | x :: xs =>
    let parts := splitCharList sep xs
    if x = sep then [] :: parts
    else match parts with
      | [] => [[x]]
      | p :: ps => (x :: p) :: ps

/-- Python `s.split(sep)` for a single-character separator. -/
def pySplit (s : String) (sep : Char) : List String :=
  (splitCharList sep s.data).map String.mk

/-- Python `sep.join(parts)`. -/
def pyJoin (sep : String) : List String → String
  | [] => ""
  | [x] => x
  | x :: xs => x ++ sep ++ pyJoin sep xs

/-- Python `s.split(sep, 1)` for a single-character separator: the part
before the first occurrence and everything after it (`""` when `sep` does
not occur). -/
def splitFirst (s : String) (sep : Char) : String × String :=
  match pySplit s sep with
  | [] => (s, "")
  | [x] => (x, "")
  | x :: rest => (x, pyJoin (String.mk [sep]) rest)

/-- `containers/images.py`, `parse_image_parts`: strip a registry host
mistakenly included in `image_name`, then split off a `:tag` suffix, the
suffix winning only when no explicit `tag` was supplied. -/
def parse_image_parts (image_name tag : String) : String × String :=
  let image_name :=
    if pyContains image_name '/' && pyContains ((pySplit image_name '/').headD "") '.' then
      pyJoin "/" (pySplit image_name '/').tail
    else image_name
  if pyContains image_name ':' then
    let parts := splitFirst image_name ':'
    if tag = "" then (parts.1, parts.2) else (parts.1, tag)
  else (image_name, tag)

/-- `containers/images.py`, `build_image_uri`. -/
def build_image_uri (container_registry image_name tag : String) : String :=
  let parts := parse_image_parts image_name tag
  if pyTrim container_registry ≠ "" then
    container_registry ++ "/" ++ parts.1 ++ ":" ++ parts.2
  else parts.1 ++ ":" ++ parts.2

/-- The spec's description of image-part parsing (§4.2), stated in its own
words: strip the leading path segment when the name "looks like" it starts
with a registry host, split on the first colon, and let the embedded tag win
only when no tag was supplied. Used to compare against the source
translation `parse_image_parts`. -/
def parse_image_parts_spec (image_name tag : String) : String × String :=
  let stripped :=
    if pyContains image_name '/' && pyContains ((pySplit image_name '/').headD "") '.' then
      pyJoin "/" (pySplit image_name '/').tail
    else image_name
  if pyContains stripped ':' then
    ((splitFirst stripped ':').1,
      if tag = "" then (splitFirst stripped ':').2 else tag)
  else (stripped, tag)

/-! ## Secrets (`secrets_manager.py`) -/

/-- One emitted ECS secret: `{"name": ..., "valueFrom": ...}`. -/
structure SecretEntry where
  name : String
  valueFrom : String
deriving Repr, DecidableEq

/-- One entry of the new-format `secrets_envs` list. String fields default
to `""` exactly as `secret_config.get("id", "")` etc. do in the source. -/
structure SecretEnvCfg where
  id : String := ""
  name : String := ""
  values : List String := []
  auto_parse_keys_to_envs : Bool := true
  env_name : String := ""
deriving Repr, DecidableEq

/-- The external AWS Secrets Manager, as seen from
`SecretManager.discover_secret_keys` / `SecretManager.resolve_secret_arn`.
Both source functions are total: every AWS failure mode falls back to mock
keys / a mock ARN, so the oracle is a pair of plain functions. -/
structure SecretOracle where
  discover : String → List String × String
  resolveArn : String → String

/-- `add_secret` inside `build_secrets_from_config`: raise on a duplicate
environment-variable name, otherwise append. The Python `seen_secret_names`
set holds exactly the names of the accumulated list. -/
def addSecret (secrets : List SecretEntry) (secret_env_name value_from : String) :
    Except String (List SecretEntry) :=
  if secret_env_name ∈ secrets.map SecretEntry.name then
    .error ("Duplicate secret environment variable name detected: " ++ secret_env_name)
  else .ok (secrets ++ [⟨secret_env_name, value_from⟩])

/-- The key loop of the name-only auto-discovery branch
(`secrets_manager.py` lines 204-219).  The whole branch runs inside
`try: ... except Exception: logger.error(...)`, and `discover_secret_keys`
itself never raises, so the only exception the `except` can catch is the
duplicate-name `ValidationError` from `add_secret`: on a duplicate the loop
stops, the keys added so far are kept, the error is logged and swallowed. -/
def addDiscovered (secrets : List SecretEntry) (arn : String) :
    List String → List SecretEntry
  | [] => secrets
  | k :: ks =>
    match addSecret secrets k (arn ++ ":" ++ k ++ "::") with
    | .ok secrets' => addDiscovered secrets' arn ks
    | .error _ => secrets

/-- One iteration of the `secrets_envs` loop in `build_secrets_from_config`. -/
def processSecretEnv (oracle : SecretOracle) (secrets : List SecretEntry)
    (sc : SecretEnvCfg) : Except String (List SecretEntry) :=
  let secret_id := pyTrim sc.id
  let secret_name := pyTrim sc.name
  if ¬ sc.auto_parse_keys_to_envs then
    let env_name := pyTrim sc.env_name
    if env_name = "" then
      .error "env_name is required when auto_parse_keys_to_envs is false"
    else if secret_id ≠ "" then
      addSecret secrets env_name secret_id
    else if secret_name ≠ "" then
      addSecret secrets env_name (oracle.resolveArn secret_name)
    else
      .error "Either id or name is required when auto_parse_keys_to_envs is false"
  else if secret_name ≠ "" ∧ secret_id = "" ∧ sc.values = [] then
    let disc := oracle.discover secret_name
    .ok (addDiscovered secrets disc.2 disc.1)
  else if secret_id = "" then
    .ok secrets
  else
    sc.values.foldlM (fun s key => addSecret s key (secret_id ++ ":" ++ key ++ "::")) secrets

/-- `SecretManager.build_secrets_from_config`, over the two secret-bearing
config keys.  `secrets` is the legacy list of single-key mappings
(name → base ARN), `secrets_envs` the new format. -/
def build_secrets_from_config (oracle : SecretOracle)
    (secrets : List (List (String × String))) (secrets_envs : List SecretEnvCfg) :
    Except String (List SecretEntry) := do
  let s ← secrets.foldlM
    (fun s d => d.foldlM
      (fun s kv => addSecret s kv.1 (kv.2 ++ ":" ++ kv.1 ++ "::")) s) []
  secrets_envs.foldlM (processSecretEnv oracle) s

/-! ## Configuration (`config_loader.py` and the keys read by `generator.py`) -/

/-- The `health_check` sub-document, keys defaulted as at their use sites. -/
structure HealthCheckCfg where
  command : String := ""
  interval : Int := 30
  timeout : Int := 5
  retries : Int := 3
  start_period : Int := 10
deriving Repr, DecidableEq

/-- The `otel_collector` sub-document. -/
structure OtelCfg where
  image_name : String := ""
  ssm_name : String := "adot-config-global.yaml"
  extra_config : String := ""
  metrics_port : Int := 8080
  metrics_path : String := "/metrics"
deriving Repr, DecidableEq

/-- The `fluent_bit_collector` sub-document. `service_name` defaults to the
app name at its use site, so absence is kept as `none`. -/
structure FluentBitCfg where
  image_name : String := ""
  extra_config : String := "extra.conf"
  ecs_log_metadata : String := "true"
  service_name : Option String := none
deriving Repr, DecidableEq

/-- One `linux_parameters.tmpfs` entry. `container_path` falls back to
`/tmp` when falsy, `size` to 64; both applied at the use site in the
source, so `""` stands for an absent/falsy `container_path`. -/
structure TmpfsCfg where
  container_path : String := ""
  size : Int := 64
  mount_options : List String := []
deriving Repr, DecidableEq

/-- One `linux_parameters.devices` entry. -/
structure DeviceCfg where
  host_path : String := ""
  container_path : Option String := none
  permissions : List String := ["read", "write"]
deriving Repr, DecidableEq

/-- The `linux_parameters.capabilities` sub-document. `none` at the use
site stands for an absent or empty (falsy) dict. -/
structure CapabilitiesCfg where
  add : List String := []
  drop : List String := []
deriving Repr, DecidableEq

/-- The `linux_parameters` sub-document. -/
structure LinuxParamsCfg where
  init_process_enabled : Option Bool := none
  capabilities : Option CapabilitiesCfg := none
  tmpfs : List TmpfsCfg := []
  swappiness : Option Int := none
  max_swap : Option Int := none
  shared_memory_size : Option Int := none
  devices : List DeviceCfg := []
deriving Repr, DecidableEq

/-- The top-level YAML configuration. Defaults mirror the `config.get`
default arguments in the source; `Option` marks keys whose presence is
itself tested by the source (`is not None` / dict truthiness). -/
structure Config where
  name : Option String := none
  cpu : Int := 256
  memory : Int := 512
  cpu_arch : String := "X86_64"
  launch_type : String := "FARGATE"
  network_mode : String := "awsvpc"
  command : List String := []
  entrypoint : List String := []
  port : Option Int := none
  additional_ports : List (List (String × Int)) := []
  app_protocol : String := "http"
  envs : List (List (String × PyVal)) := []
  secrets : List (List (String × String)) := []
  secrets_envs : List SecretEnvCfg := []
  secret_files : List String := []
  secrets_files_path : String := "/etc/secrets"
  writable_dirs : List String := []
  readonly_root_filesystem : Option Bool := none
  ephemeral_storage : Option Int := none
  role_arn : String := ""
  health_check : Option HealthCheckCfg := none
  linux_parameters : Option LinuxParamsCfg := none
  fluent_bit_collector : Option FluentBitCfg := none
  otel_collector : Option OtelCfg := none
  stop_timeout : Option Int := none

/-- The Fargate CPU→memory compatibility table of `validate_config`
(`config_loader.py` lines 42-48), including the two `range(...)` rows. -/
def valid_memory_for_cpu (cpu : Int) : List Int :=
  if cpu = 256 then [512, 1024, 2048]
  else if cpu = 512 then [1024, 2048, 3072, 4096]
  else if cpu = 1024 then [2048, 3072, 4096, 5120, 6144, 7168, 8192]
  else if cpu = 2048 then (List.range 13).map (fun i => 4096 + 1024 * (i : Int))
  else if cpu = 4096 then (List.range 23).map (fun i => 8192 + 1024 * (i : Int))
  else []

/-- Structural validation of one `secrets_envs` entry inside
`validate_config` (lines 67-108): the loop raises at the first offending
entry/value. Type-level checks (`isinstance`) hold by construction in the
typed embedding. -/
def validate_secret_env_entry (sc : SecretEnvCfg) : Except String Unit :=
  if ¬ sc.auto_parse_keys_to_envs ∧ pyTrim sc.env_name = "" then
    .error "env_name is required when auto_parse_keys_to_envs is false"
  else if ¬ sc.auto_parse_keys_to_envs ∧ pyTrim sc.id = "" ∧ pyTrim sc.name = "" then
    .error "either id or name is required when auto_parse_keys_to_envs is false"
  else if sc.values.any (fun v => v.trim = "") then
    .error "values entries must be non-empty strings"
  else .ok ()

/-- The `secrets_envs` validation loop at the end of `validate_config`. -/
def validate_secrets_envs : List SecretEnvCfg → Except String Unit
  | [] => .ok ()
  | sc :: rest =>
    match validate_secret_env_entry sc with
    | .error e => .error e
    | .ok () => validate_secrets_envs rest

/-- `config_loader.py`, `validate_config`. A `raise` is an early
`.error` return. -/
def validate_config (config : Config) : Except String Unit :=
  let launch_type := pyUpper config.launch_type
  if launch_type ≠ "FARGATE" ∧ launch_type ≠ "EC2" then
    .error ("Invalid launch_type: " ++ launch_type)
  else
    let network_mode := pyLower config.network_mode
    if network_mode ∉ ["awsvpc", "bridge", "host", "none"] then
      .error ("Invalid network_mode: " ++ network_mode)
    else if launch_type = "FARGATE" ∧ network_mode ≠ "awsvpc" then
      .error ("Fargate only supports awsvpc network mode, got: " ++ network_mode)
    else if launch_type = "FARGATE" then
      if config.cpu ∉ [256, 512, 1024, 2048, 4096] then
        .error "Invalid CPU value"
      else if config.memory ∉ valid_memory_for_cpu config.cpu then
        .error "Invalid memory value for CPU"
      else validate_secrets_envs config.secrets_envs
    else
      if config.cpu ≤ 0 then .error "Invalid CPU value: must be a positive integer."
      else if config.memory ≤ 0 then .error "Invalid memory value: must be a positive integer."
      else validate_secrets_envs config.secrets_envs

/-! ## Container definitions (`containers/`) -/

/-- A `portMappings` entry (`containers/base.py`). `appProtocol` is only
present when the configured app protocol is not `tcp`. -/
structure PortMapping where
  name : String
  containerPort : Int
  hostPort : Int
  protocol : String := "tcp"
  appProtocol : Option String := none
deriving Repr, DecidableEq

/-- `ContainerBuilder.build_port_mappings` (`containers/base.py`).
`main_port` is falsy in Python when absent or `0`; every `additional_ports`
entry is a single-key mapping name → port. -/
def build_port_mappings (main_port : Option Int)
    (additional_ports : List (List (String × Int)))
    (app_protocol network_mode : String) : List PortMapping :=
  let use_dynamic_host_port := network_mode = "bridge"
  let main : List PortMapping :=
    match main_port with
    | some p =>
      if p ≠ 0 then
        [{ name := "default", containerPort := p,
           hostPort := if use_dynamic_host_port then 0 else p,
           protocol := "tcp",
           appProtocol := if app_protocol ≠ "tcp" then some app_protocol else none }]
      else []
    | none => []
  main ++ (additional_ports.map (fun port_info =>
    port_info.map (fun np =>
      { name := np.1, containerPort := np.2,
        hostPort := if use_dynamic_host_port then 0 else np.2,
        protocol := "tcp",
        appProtocol := if app_protocol ≠ "tcp" then some app_protocol else none
        : PortMapping }))).flatten

/-- A `logConfiguration` document: driver plus option key/value pairs. -/
structure LogConfiguration where
  logDriver : String
  options : List (String × String)
deriving Repr, DecidableEq

/-- `ContainerBuilder.build_log_configuration`. -/
def build_log_configuration (cluster_name app_name aws_region stream_pfx : String) :
    LogConfiguration :=
  let stream_pfx := if stream_pfx = "default" then "/default" else stream_pfx
  { logDriver := "awslogs",
    options := [("awslogs-group", "/ecs/" ++ cluster_name ++ "/" ++ app_name),
                ("awslogs-region", aws_region),
                ("awslogs-stream-prefix", stream_pfx)] }

/-- An emitted `healthCheck` document. -/
structure HealthCheckOut where
  command : List String
  interval : Int
  timeout : Int
  retries : Int
  startPeriod : Int
deriving Repr, DecidableEq

/-- A `mountPoints` entry. -/
structure MountPoint where
  sourceVolume : String
  containerPath : String
deriving Repr, DecidableEq

/-- A `dependsOn` entry. -/
structure DependsOn where
  containerName : String
  condition : String
deriving Repr, DecidableEq

/-- A `firelensConfiguration` document (Fluent Bit sidecar). -/
structure FirelensConfiguration where
  type : String
  options : List (String × String)
deriving Repr, DecidableEq

/-- The emitted `capabilities` sub-document of `linuxParameters`: the `add`
and `drop` keys are present only when the corresponding list is non-empty. -/
structure CapsOut where
  add : Option (List String) := none
  drop : Option (List String) := none
deriving Repr, DecidableEq

/-- An emitted `tmpfs` mount. -/
structure TmpfsOut where
  containerPath : String
  size : Int
  mountOptions : Option (List String) := none
deriving Repr, DecidableEq

/-- An emitted `devices` mapping. -/
structure DeviceOut where
  hostPath : String
  containerPath : String
  permissions : List String
deriving Repr, DecidableEq

/-- The emitted `linuxParameters` document; every key is optional. -/
structure LinuxParameters where
  initProcessEnabled : Option Bool := none
  capabilities : Option CapsOut := none
  tmpfs : Option (List TmpfsOut) := none
  swappiness : Option Int := none
  maxSwap : Option Int := none
  sharedMemorySize : Option Int := none
  devices : Option (List DeviceOut) := none
deriving Repr, DecidableEq

/-- Dict truthiness of the assembled `linux_parameters` dict: the source
returns `None` when no key was added. -/
def LinuxParameters.isEmpty (l : LinuxParameters) : Bool :=
  l.initProcessEnabled.isNone && l.capabilities.isNone && l.tmpfs.isNone &&
  l.swappiness.isNone && l.maxSwap.isNone && l.sharedMemorySize.isNone &&
  l.devices.isNone

/-- `containers/linux_parameters.py`, `build_linux_parameters`. `none` for
the `linux_parameters` key covers both an absent and an empty (falsy)
block. -/
def build_linux_parameters (config : Config) (launch_type : String) :
    Except String (Option LinuxParameters) := do
  match config.linux_parameters with
  | none => return none
  | some linux_params =>
    let initProcessEnabled := linux_params.init_process_enabled
    let capabilities : Option CapsOut :=
      match linux_params.capabilities with
      | none => none
      | some c =>
        let caps : CapsOut :=
          { add := if c.add ≠ [] then some c.add else none,
            drop := if c.drop ≠ [] then some c.drop else none }
        if caps.add.isSome ∨ caps.drop.isSome then some caps else none
    let tmpfs : Option (List TmpfsOut) ←
      if linux_params.tmpfs ≠ [] then do
        let tmpfs_mounts ← linux_params.tmpfs.mapM (fun mount => do
          let container_path := if mount.container_path = "" then "/tmp" else mount.container_path
          if mount.size ≤ 0 then
            throw "Invalid tmpfs size: must be a positive integer greater than zero."
          pure ({ containerPath := container_path, size := mount.size,
                  mountOptions := if mount.mount_options ≠ [] then some mount.mount_options else none
                  : TmpfsOut }))
        pure (if tmpfs_mounts ≠ [] then some tmpfs_mounts else none)
      else pure none
    let swappiness : Option Int ←
      match linux_params.swappiness with
      | none => pure none
      | some s =>
        if ¬ (0 ≤ s ∧ s ≤ 100) then
          throw "Invalid swappiness value; must be between 0 and 100."
        else pure (some s)
    let maxSwap : Option Int ←
      match linux_params.max_swap with
      | none => pure none
      | some m =>
        if m < 0 then throw "Invalid maxSwap value; must be a non-negative integer."
        else pure (some m)
    let sharedMemorySize : Option Int ←
      match linux_params.shared_memory_size with
      | none => pure none
      | some v =>
        if launch_type = "FARGATE" then pure none
        else if v ≤ 0 then throw "Invalid shared_memory_size: must be a positive integer"
        else pure (some v)
    let devices : Option (List DeviceOut) ←
      if linux_params.devices ≠ [] then
        if launch_type = "FARGATE" then pure none
        else do
          let devs ← linux_params.devices.mapM (fun device => do
            if device.host_path = "" then
              throw "Each entry in linux_parameters.devices must include a non-empty host_path."
            pure ({ hostPath := device.host_path,
                    containerPath := device.container_path.getD device.host_path,
                    permissions := device.permissions : DeviceOut }))
          pure (if devs ≠ [] then some devs else none)
      else pure none
    let result : LinuxParameters :=
      { initProcessEnabled, capabilities, tmpfs, swappiness, maxSwap,
        sharedMemorySize, devices }
    return if result.isEmpty then none else some result

/-- One entry of `containerDefinitions`. Keys that the source adds only
conditionally are `Option`s (`none` = key absent from the emitted JSON). -/
structure ContainerDef where
  name : String
  image : String
  essential : Bool
  environment : Option (List (String × String)) := none
  command : Option (List String) := none
  entryPoint : Option (List String) := none
  secrets : Option (List SecretEntry) := none
  stopTimeout : Option Int := none
  logConfiguration : Option LogConfiguration := none
  healthCheck : Option HealthCheckOut := none
  portMappings : Option (List PortMapping) := none
  linuxParameters : Option LinuxParameters := none
  mountPoints : Option (List MountPoint) := none
  dependsOn : Option (List DependsOn) := none
  firelensConfiguration : Option FirelensConfiguration := none
  readonlyRootFilesystem : Option Bool := none
deriving Repr, DecidableEq

/-- `containers/app.py`, `build_app_container`. -/
def build_app_container (config : Config) (image_uri : String)
    (environment : List (String × String)) (secrets : List SecretEntry)
    (health : Option HealthCheckOut)
    (cluster_name app_name aws_region : String)
    (use_fluent_bit has_secret_files : Bool)
    (secrets_files_path network_mode launch_type : String) :
    Except String ContainerDef :=
  match build_linux_parameters config launch_type with
  | .error e => .error e
  | .ok linux_parameters =>
  let port_mappings :=
    build_port_mappings config.port config.additional_ports config.app_protocol network_mode
  let app_depends_on :=
    (if has_secret_files then
      [({ containerName := "init-container-for-secret-files", condition := "SUCCESS" } : DependsOn)]
     else []) ++
    (if use_fluent_bit then
      [({ containerName := "fluent-bit", condition := "START" } : DependsOn)]
     else [])
  .ok {
    name := "app", image := image_uri, essential := true,
    environment := some environment,
    command := some config.command,
    entryPoint := some config.entrypoint,
    secrets := some secrets,
    stopTimeout := config.stop_timeout,
    logConfiguration := some (if use_fluent_bit then
        { logDriver := "awsfirelens", options := [] }
      else build_log_configuration cluster_name app_name aws_region "default"),
    healthCheck := health,
    portMappings := if port_mappings ≠ [] then some port_mappings else none,
    linuxParameters := linux_parameters,
    mountPoints := if has_secret_files then
        some [{ sourceVolume := "shared-volume", containerPath := secrets_files_path }]
      else none,
    dependsOn := if app_depends_on ≠ [] then some app_depends_on else none }

/-- The shell script of the secret-files init container
(`containers/init_containers.py` lines 26-49), with the configured
secrets-files path interpolated. -/
def init_container_command (p : String) : String :=
  "for secret in $\x7bSECRET_FILES//,/ \x7d; do " ++
  "  echo \"Fetching $secret...\"; " ++
  "  echo \"Debug: AWS_REGION=$AWS_REGION, SECRET_PATH=" ++ p ++ "\"; " ++
  "  SECRET_VALUE=$(aws secretsmanager get-secret-value --secret-id $secret --region $AWS_REGION --query SecretString --output text 2>/dev/null); " ++
  "  STRING_RESULT=$?; " ++
  "  if [ $STRING_RESULT -eq 0 ] && [ -n \"$SECRET_VALUE\" ] && [ \"$SECRET_VALUE\" != \"null\" ] && [ \"$SECRET_VALUE\" != \"none\" ] && [ \"$SECRET_VALUE\" != \"None\" ]; then " ++
  "    echo \"Found text secret, saving to " ++ p ++ "/$secret\"; " ++
  "    echo \"$SECRET_VALUE\" > " ++ p ++ "/$secret; " ++
  "  else " ++
  "    echo \"Text retrieval failed or returned null, trying binary retrieval...\"; " ++
  "    aws secretsmanager get-secret-value --secret-id $secret --region $AWS_REGION --query SecretBinary --output text | base64 -d > " ++ p ++ "/$secret 2>/dev/null; " ++
  "    BINARY_RESULT=$?; " ++
  "    if [ $BINARY_RESULT -eq 0 ] && [ -s " ++ p ++ "/$secret ]; then " ++
  "      echo \"Found binary secret, saved to " ++ p ++ "/$secret\"; " ++
  "    else " ++
  "      echo \"❌ Failed to retrieve $secret as either text or binary\" >&2; " ++
  "      echo \"Text result: $STRING_RESULT, Binary result: $BINARY_RESULT\" >&2; " ++
  "      exit 1; " ++
  "    fi; " ++
  "  fi; " ++
  "  echo \"✅ Successfully saved $secret to " ++ p ++ "/$secret (size: $(stat -c%s " ++ p ++ "/$secret 2>/dev/null || wc -c < " ++ p ++ "/$secret))\"; " ++
  "done"

/-- `containers/init_containers.py`, `build_init_containers`: one init
container when `secret_files` is non-empty, none otherwise. -/
def build_init_containers (secret_files : List String)
    (cluster_name app_name aws_region secrets_files_path : String) :
    List ContainerDef :=
  if secret_files ≠ [] then
    [{ name := "init-container-for-secret-files",
       image := "public.ecr.aws/aws-cli/aws-cli:latest",
       essential := false,
       entryPoint := some ["/bin/sh"],
       command := some ["-c", init_container_command secrets_files_path],
       environment := some
         [("SECRET_FILES", pyJoin "," secret_files),
          ("AWS_REGION", aws_region)],
       mountPoints := some
         [{ sourceVolume := "shared-volume", containerPath := secrets_files_path }],
       logConfiguration := some
         (build_log_configuration cluster_name app_name aws_region "ssm-file-downloader") }]
  else []

/-- `containers/sidecars.py`, `build_fluent_bit_container`. -/
def build_fluent_bit_container (config : Config)
    (fluent_bit_image app_name cluster_name aws_region : String) : ContainerDef :=
  let fluent_bit_collector := config.fluent_bit_collector.getD {}
  let config_name := fluent_bit_collector.extra_config
  let ecs_log_metadata := fluent_bit_collector.ecs_log_metadata
  let fluent_bit_service_name := fluent_bit_collector.service_name.getD app_name
  { name := "fluent-bit", image := fluent_bit_image, essential := true,
    environment := some
      [("SERVICE_NAME", fluent_bit_service_name), ("ENV", cluster_name)],
    healthCheck := some
      { command := ["CMD-SHELL", "curl -f http://127.0.0.1:2020/api/v1/health || exit 1"],
        interval := 10, timeout := 5, retries := 3, startPeriod := 5 },
    logConfiguration := some
      { logDriver := "awslogs",
        options := [("awslogs-group", "/ecs/" ++ cluster_name ++ "/" ++ app_name),
                    ("awslogs-region", aws_region),
                    ("awslogs-stream-prefix", "fluentbit")] },
    firelensConfiguration := some
      { type := "fluentbit",
        options := [("config-file-type", "file"),
                    ("config-file-value", "extra/" ++ config_name),
                    ("enable-ecs-log-metadata", ecs_log_metadata)] } }

/-- `containers/sidecars.py`, `build_otel_container`. -/
def build_otel_container (otel_collector_image : String)
    (otel_is_custom_image : Bool)
    (otel_collector_ssm otel_extra_config : String)
    (otel_metrics_port : Int) (otel_metrics_path : String)
    (app_name cluster_name aws_region : String) : ContainerDef :=
  let otel_environment :=
    [("METRICS_PATH", otel_metrics_path), ("METRICS_PORT", toString otel_metrics_port)] ++
    (if otel_is_custom_image then [("SERVICE_NAME", app_name)] else [])
  let otel_command :=
    if otel_is_custom_image ∧ otel_extra_config ≠ "" then
      ["--config", "/conf/" ++ otel_extra_config]
    else if otel_is_custom_image then
      ["--config", "/conf/config.yaml"]
    else
      ["--config", "env:SSM_CONFIG"]
  { name := "otel-collector", image := otel_collector_image, essential := true,
    portMappings := some
      [{ name := "otel-collector-4317-tcp", containerPort := 4317, hostPort := 4317,
         protocol := "tcp", appProtocol := some "grpc" },
       { name := "otel-collector-4318-tcp", containerPort := 4318, hostPort := 4318,
         protocol := "tcp" }],
    command := some otel_command,
    logConfiguration := some
      { logDriver := "awslogs",
        options := [("awslogs-group", "/ecs/" ++ cluster_name ++ "/" ++ app_name),
                    ("awslogs-region", aws_region),
                    ("awslogs-stream-prefix", "otel-collector")] },
    environment := if otel_environment ≠ [] then some otel_environment else none,
    secrets := if ¬ otel_is_custom_image then
        some [{ name := "SSM_CONFIG", valueFrom := otel_collector_ssm }]
      else none }

/-! ## The generator (`generator.py`) -/

/-- A task-definition `volumes` entry; `host` is always the empty document
in the source, so only the name is carried. -/
structure Volume where
  name : String
deriving Repr, DecidableEq

/-- The `runtimePlatform` document (Fargate only). -/
structure RuntimePlatform where
  cpuArchitecture : String
  operatingSystemFamily : String
deriving Repr, DecidableEq

/-- The generated task definition. `ephemeralStorage` carries the
`sizeInGiB` value. -/
structure TaskDefinition where
  containerDefinitions : List ContainerDef
  cpu : String
  memory : String
  family : String
  taskRoleArn : String
  executionRoleArn : String
  networkMode : String
  requiresCompatibilities : List String
  runtimePlatform : Option RuntimePlatform := none
  ephemeralStorage : Option Int := none
  volumes : Option (List Volume) := none
deriving Repr, DecidableEq

/-- Volume name for a writable directory (`generator.py` lines 132 and
214): strip leading/trailing slashes, replace internal slashes with
hyphens, prefix `writable-`. -/
def writable_vol_name (dir_path : String) : String :=
  "writable-" ++ pyReplaceChar (pyStripChar dir_path '/') '/' '-'


/-- `generator.py`, `generate_task_definition`, on an in-memory config (the
`config_dict` path of the source, which skips YAML loading).  Optional
string arguments of the source are carried as plain strings, `""` standing
for an absent (falsy) value where the source tests truthiness. -/
def generate_task_definition (oracle : SecretOracle) (config : Config)
    (cluster_name aws_region registry container_registry image_name tag
     service_name : String) : Except String TaskDefinition :=
  let app_name := if service_name ≠ "" then service_name else config.name.getD "app"
  let cpu := toString config.cpu
  let memory := toString config.memory
  let otel :=
    match config.otel_collector with
    | some oc =>
      let img := pyTrim oc.image_name
      (some (if img = "" then "public.ecr.aws/aws-observability/aws-otel-collector:latest"
             else registry ++ "/" ++ img),
       img != "", pyTrim oc.ssm_name, pyTrim oc.extra_config, oc.metrics_port, oc.metrics_path)
    | none => (none, false, "", "", 8080, "/metrics")
  let (otel_collector_image, otel_is_custom_image, otel_collector_ssm,
       otel_extra_config, otel_metrics_port, otel_metrics_path) := otel
  let cpu_arch := config.cpu_arch
  let health : Option HealthCheckOut :=
    match config.health_check with
    | some hc =>
      if hc.command ≠ "" then
        some { command := ["CMD-SHELL", hc.command], interval := hc.interval,
               timeout := hc.timeout, retries := hc.retries,
               startPeriod := hc.start_period }
      else none
    | none => none
  let use_fluent_bit :=
    match config.fluent_bit_collector with
    | some f => pyTrim f.image_name != ""
    | none => false
  let fluent_bit_image :=
    match config.fluent_bit_collector with
    | some f => if pyTrim f.image_name ≠ "" then registry ++ "/" ++ pyTrim f.image_name else ""
    | none => ""
  let environment :=
    (config.envs.map (fun env_var => env_var.map (fun kv => (kv.1, pyStr kv.2)))).flatten
  match build_secrets_from_config oracle config.secrets config.secrets_envs with
  | .error e => .error e
  | .ok secrets =>
    let secret_files := config.secret_files
    let has_secret_files := secret_files != []
    let secrets_files_path := config.secrets_files_path
    let writable_dirs := config.writable_dirs
    let volumes :=
      (if has_secret_files then [({ name := "shared-volume" } : Volume)] else []) ++
      writable_dirs.map (fun dir_path => ({ name := writable_vol_name dir_path } : Volume))
    let image_parts := parse_image_parts image_name tag
    let image_uri := build_image_uri container_registry image_parts.1 image_parts.2
    let launch_type := pyUpper config.launch_type
    let network_mode := pyLower config.network_mode
    let init_containers :=
      build_init_containers secret_files cluster_name app_name aws_region secrets_files_path
    match build_app_container config image_uri environment secrets health
        cluster_name app_name aws_region use_fluent_bit has_secret_files
        secrets_files_path network_mode launch_type with
    | .error e => .error e
    | .ok app_container =>
      let container_definitions :=
        init_containers ++ [app_container] ++
        (if use_fluent_bit then
          [build_fluent_bit_container config fluent_bit_image app_name cluster_name aws_region]
         else []) ++
        (match otel_collector_image with
         | some img =>
           [build_otel_container img otel_is_custom_image otel_collector_ssm
              otel_extra_config otel_metrics_port otel_metrics_path
              app_name cluster_name aws_region]
         | none => [])
      let container_definitions :=
        match config.readonly_root_filesystem with
        | some b => container_definitions.map
            (fun container => { container with readonlyRootFilesystem := some b })
        | none => container_definitions
      let container_definitions :=
        if writable_dirs ≠ [] then
          container_definitions.map (fun container =>
            let mps := (container.mountPoints.getD []) ++
              writable_dirs.map (fun dir_path =>
                ({ sourceVolume := writable_vol_name dir_path,
                   containerPath := dir_path } : MountPoint))
            { container with mountPoints := some mps })
        else container_definitions
      .ok {
        containerDefinitions := container_definitions,
        cpu := cpu, memory := memory,
        family := cluster_name ++ "_" ++ app_name,
        taskRoleArn := config.role_arn,
        executionRoleArn := config.role_arn,
        networkMode := network_mode,
        requiresCompatibilities := [launch_type],
        runtimePlatform :=
          if launch_type = "FARGATE" then
            some { cpuArchitecture := cpu_arch, operatingSystemFamily := "LINUX" }
          else none,
        ephemeralStorage := config.ephemeral_storage,
        volumes := if volumes ≠ [] then some volumes else none }

/-! ## Helper lemmas and demonstration values -/

/-- Fallback container used only to state closed corollaries about
`Except`-valued results. -/
def emptyContainer : ContainerDef := { name := "", image := "", essential := false }

/-- Fallback task definition used only to state closed corollaries about
`Except`-valued results. -/
def emptyTaskDefinition : TaskDefinition :=
  { containerDefinitions := [], cpu := "", memory := "", family := "",
    taskRoleArn := "", executionRoleArn := "", networkMode := "",
    requiresCompatibilities := [] }

/-- A deterministic stand-in for the AWS Secrets Manager used in
demonstration runs. -/
def demoOracle : SecretOracle :=
  { discover := fun _ => ([], ""), resolveArn := fun secret_name => secret_name }

/-- A configuration enabling secret files, the Fluent Bit sidecar and the
OTEL collector at once. -/
def demoAllCfg : Config :=
  { secret_files := ["creds"],
    fluent_bit_collector := some { image_name := "fb-img" },
    otel_collector := some {} }

/-- A configuration with two writable directories. -/
def demoWdCfg : Config := { writable_dirs := ["/tmp", "/var/run"] }

/-- A configuration whose `envs` list repeats the same variable name. -/
def demoEnvCfg : Config := { envs := [[("A", .i 1)], [("A", .i 2)]] }

lemma error_or_ok_isOk_iff (A B : Prop) [Decidable A] [Decidable B] (e1 e2 : String) :
    ((if A then (Except.error e1 : Except String Unit)
      else if B then Except.error e2 else Except.ok ()).isOk = false) ↔ (A ∨ B) := by
  by_cases hA : A
  · simp [hA, Except.isOk, Except.toBool]
  · by_cases hB : B <;> simp [hA, hB, Except.isOk, Except.toBool]

lemma validate_config_cpu_mem (cpu memory : Int) :
    validate_config { cpu := cpu, memory := memory } =
      (if cpu ∉ [256, 512, 1024, 2048, 4096] then .error "Invalid CPU value"
       else if memory ∉ valid_memory_for_cpu cpu then .error "Invalid memory value for CPU"
       else .ok ()) := by
  unfold validate_config
  dsimp only
  rw [if_neg (by decide), if_neg (by decide), if_neg (by decide), if_pos (by decide)]
  rfl

lemma cpu_memory_table_iff (cpu memory : Int) :
    (cpu ∈ ([256, 512, 1024, 2048, 4096] : List Int) ∧ memory ∈ valid_memory_for_cpu cpu) ↔
      ((cpu = 256 ∧ memory ∈ ([512, 1024, 2048] : List Int)) ∨
       (cpu = 512 ∧ memory ∈ ([1024, 2048, 3072, 4096] : List Int)) ∨
       (cpu = 1024 ∧ memory ∈ ([2048, 3072, 4096, 5120, 6144, 7168, 8192] : List Int)) ∨
       (cpu = 2048 ∧ memory ∈ ([4096, 5120, 6144, 7168, 8192, 9216, 10240, 11264, 12288,
          13312, 14336, 15360, 16384] : List Int)) ∨
       (cpu = 4096 ∧ memory ∈ ([8192, 9216, 10240, 11264, 12288, 13312, 14336, 15360, 16384,
          17408, 18432, 19456, 20480, 21504, 22528, 23552, 24576, 25600, 26624, 27648, 28672,
          29696, 30720] : List Int))) := by
  have t2048 : valid_memory_for_cpu 2048 = [4096, 5120, 6144, 7168, 8192, 9216, 10240, 11264,
      12288, 13312, 14336, 15360, 16384] := by decide
  have t4096 : valid_memory_for_cpu 4096 = [8192, 9216, 10240, 11264, 12288, 13312, 14336,
      15360, 16384, 17408, 18432, 19456, 20480, 21504, 22528, 23552, 24576, 25600, 26624,
      27648, 28672, 29696, 30720] := by decide
  constructor
  · rintro ⟨h1, h2⟩
    rcases (by simpa using h1 : cpu = 256 ∨ cpu = 512 ∨ cpu = 1024 ∨ cpu = 2048 ∨ cpu = 4096)
      with rfl | rfl | rfl | rfl | rfl
    · exact Or.inl ⟨rfl, by simpa [valid_memory_for_cpu] using h2⟩
    · exact Or.inr (Or.inl ⟨rfl, by simpa [valid_memory_for_cpu] using h2⟩)
    · exact Or.inr (Or.inr (Or.inl ⟨rfl, by simpa [valid_memory_for_cpu] using h2⟩))
    · exact Or.inr (Or.inr (Or.inr (Or.inl ⟨rfl, by rw [t2048] at h2; exact h2⟩)))
    · exact Or.inr (Or.inr (Or.inr (Or.inr ⟨rfl, by rw [t4096] at h2; exact h2⟩)))
  · rintro (⟨rfl, hm⟩ | ⟨rfl, hm⟩ | ⟨rfl, hm⟩ | ⟨rfl, hm⟩ | ⟨rfl, hm⟩)
    · exact ⟨by decide, by simpa [valid_memory_for_cpu] using hm⟩
    · exact ⟨by decide, by simpa [valid_memory_for_cpu] using hm⟩
    · exact ⟨by decide, by simpa [valid_memory_for_cpu] using hm⟩
    · exact ⟨by decide, by rw [t2048]; exact hm⟩
    · exact ⟨by decide, by rw [t4096]; exact hm⟩

lemma map_name_of_update (l : List ContainerDef) (g : ContainerDef → ContainerDef)
    (hg : ∀ c, (g c).name = c.name) :
    (l.map g).map ContainerDef.name = l.map ContainerDef.name := by
  rw [List.map_map]
  exact List.map_congr_left (fun a _ => hg a)

lemma passes_map_name (wd : List String) (ro : Option Bool) (l : List ContainerDef) :
    List.map ContainerDef.name
      (if wd ≠ [] then
        List.map (fun container =>
          let mps := (container.mountPoints.getD []) ++
            wd.map (fun dir_path =>
              ({ sourceVolume := writable_vol_name dir_path,
                 containerPath := dir_path } : MountPoint))
          { container with mountPoints := some mps })
          (match ro with
           | some b => List.map (fun container =>
               { container with readonlyRootFilesystem := some b }) l
           | none => l)
      else
        (match ro with
         | some b => List.map (fun container =>
             { container with readonlyRootFilesystem := some b }) l
         | none => l)) = List.map ContainerDef.name l := by
  cases ro <;> dsimp only <;> by_cases hwd : wd ≠ []
  · rw [if_pos hwd, List.map_map]
    exact List.map_congr_left (fun a _ => rfl)
  · rw [if_neg hwd]
  · rw [if_pos hwd, List.map_map, List.map_map]
    exact List.map_congr_left (fun a _ => rfl)
  · rw [if_neg hwd, List.map_map]
    exact List.map_congr_left (fun a _ => rfl)

lemma mem_ite_nil {α : Type} (p : Prop) [Decidable p] (x c : α)
    (h : c ∈ if p then [x] else []) : c = x := by
  split at h
  · simpa using h
  · simp at h

lemma mem_passes (wd : List String) (ro : Option Bool) (l : List ContainerDef)
    (c : ContainerDef)
    (hc : c ∈ (if wd ≠ [] then
        List.map (fun container =>
          let mps := (container.mountPoints.getD []) ++
            wd.map (fun dir_path =>
              ({ sourceVolume := writable_vol_name dir_path,
                 containerPath := dir_path } : MountPoint))
          { container with mountPoints := some mps })
          (match ro with
           | some b => List.map (fun container =>
               { container with readonlyRootFilesystem := some b }) l
           | none => l)
      else
        (match ro with
         | some b => List.map (fun container =>
             { container with readonlyRootFilesystem := some b }) l
         | none => l))) :
    ∃ c0 ∈ l, c.name = c0.name ∧ c.environment = c0.environment := by
  have base : ∀ c', (c' ∈ match ro with
      | some b => List.map (fun container : ContainerDef =>
          { container with readonlyRootFilesystem := some b }) l
      | none => l) → ∃ c0 ∈ l, c'.name = c0.name ∧ c'.environment = c0.environment := by
    intro c' hc'
    cases ro with
    | none => exact ⟨c', hc', rfl, rfl⟩
    | some b =>
      obtain ⟨c0, hc0, rfl⟩ := List.mem_map.mp hc'
      exact ⟨c0, hc0, rfl, rfl⟩
  split at hc
  · obtain ⟨c1, hc1, rfl⟩ := List.mem_map.mp hc
    obtain ⟨c0, hc0, h1, h2⟩ := base c1 hc1
    exact ⟨c0, hc0, h1, h2⟩
  · exact base c hc

lemma fluent_bit_name (config : Config) (img an cn ar : String) :
    (build_fluent_bit_container config img an cn ar).name = "fluent-bit" := rfl

lemma otel_name (img : String) (custom : Bool) (ssm extra : String) (mp : Int)
    (mpath an cn ar : String) :
    (build_otel_container img custom ssm extra mp mpath an cn ar).name = "otel-collector" := rfl

lemma init_containers_name (sf : List String) (cn an ar sfp : String) (c : ContainerDef)
    (h : c ∈ build_init_containers sf cn an ar sfp) :
    c.name = "init-container-for-secret-files" := by
  unfold build_init_containers at h
  rw [mem_ite_nil _ _ _ h]

/-! ## Claim theorems -/

/-- Claim C1. The claim states that whenever two secret resolutions
(across the legacy `secrets` list and every shape of `secrets_envs` entry,
including names emitted by name-only auto-discovery) produce the same
emitted secret name, `build_secrets_from_config` raises a duplicate-name
error.  Evaluating the embedding at a failing input shows the code does
not: when the second occurrence of `DB_HOST` is emitted by the name-only
auto-discovery branch, the `ValidationError` from `add_secret` is caught
by that branch's blanket `except Exception` handler, the run returns
successfully, and the duplicate together with every later discovered key
(`DB_PORT` here) is silently dropped. -/
theorem secrets_duplicate_from_discovery_swallowed :
    build_secrets_from_config
      { discover := fun _ => (["DB_HOST", "DB_PORT"],
          "arn:aws:secretsmanager:us-east-1:123456789012:secret:shared-xyz789"),
        resolveArn := fun secret_name => secret_name }
      [[("DB_HOST", "arn:aws:secretsmanager:us-east-1:123456789012:secret:legacy-abc123")]]
      [{ name := "shared" }] =
    .ok [{ name := "DB_HOST",
           valueFrom :=
             "arn:aws:secretsmanager:us-east-1:123456789012:secret:legacy-abc123:DB_HOST::" }] :=
  rfl

/-- Claim C2. For every successfully generated task definition, the
container names appear in the order: init container (present iff
`secret_files` is non-empty), then the app container, then the fluent-bit
sidecar (iff enabled), then the otel-collector sidecar (iff
`otel_collector` is present). -/
theorem container_definitions_order (oracle : SecretOracle) (config : Config)
    (cluster_name aws_region registry container_registry image_name tag service_name : String)
    (td : TaskDefinition)
    (h : generate_task_definition oracle config cluster_name aws_region registry
      container_registry image_name tag service_name = .ok td) :
    td.containerDefinitions.map ContainerDef.name =
      (if config.secret_files ≠ [] then ["init-container-for-secret-files"] else []) ++
      ["app"] ++
      (if (match config.fluent_bit_collector with
           | some f => pyTrim f.image_name != ""
           | none => false) then ["fluent-bit"] else []) ++
      (if config.otel_collector.isSome then ["otel-collector"] else []) := by
  unfold generate_task_definition at h
  dsimp only at h
  split at h
  · cases h
  · split at h
    · cases h
    · injection h with h
      subst h
      dsimp only
      rename_i x1 secrets heqs x2 app heqa
      have happ_name : app.name = "app" := by
        unfold build_app_container at heqa
        split at heqa
        · cases heqa
        · injection heqa with h2
          rw [← h2]
      rw [passes_map_name]
      cases hoc : config.otel_collector <;> dsimp only <;>
      cases hfb : config.fluent_bit_collector <;> dsimp only <;>
      by_cases hsf : config.secret_files ≠ [] <;>
        simp [build_init_containers, build_fluent_bit_container, build_otel_container,
          hsf, happ_name, List.map_append, apply_ite (List.map ContainerDef.name)]

/-- Claim C2 witness: with secret files, Fluent Bit and OTEL all enabled
the emitted order is exactly
`[init-container-for-secret-files, app, fluent-bit, otel-collector]`. -/
theorem container_definitions_order_witness :
    ((generate_task_definition demoOracle demoAllCfg "c" "r" "reg" "creg" "im" "v1"
        "s").toOption.getD emptyTaskDefinition).containerDefinitions.map ContainerDef.name =
      ["init-container-for-secret-files", "app", "fluent-bit", "otel-collector"] := by
  refine (container_definitions_order demoOracle demoAllCfg "c" "r" "reg" "creg" "im" "v1"
    "s" _ rfl).trans ?_
  decide

/-- Claim C3. With `launch_type = FARGATE` (and the other fields at their
valid defaults), `validate_config` fails exactly when the CPU value is not
one of the five Fargate sizes or the memory value is outside the fixed
compatibility table of that CPU value. -/
theorem fargate_cpu_memory_validation (cpu memory : Int) :
    (validate_config { cpu := cpu, memory := memory }).isOk = false ↔
      ¬ ((cpu = 256 ∧ memory ∈ ([512, 1024, 2048] : List Int)) ∨
         (cpu = 512 ∧ memory ∈ ([1024, 2048, 3072, 4096] : List Int)) ∨
         (cpu = 1024 ∧ memory ∈ ([2048, 3072, 4096, 5120, 6144, 7168, 8192] : List Int)) ∨
         (cpu = 2048 ∧ memory ∈ ([4096, 5120, 6144, 7168, 8192, 9216, 10240, 11264, 12288,
            13312, 14336, 15360, 16384] : List Int)) ∨
         (cpu = 4096 ∧ memory ∈ ([8192, 9216, 10240, 11264, 12288, 13312, 14336, 15360,
            16384, 17408, 18432, 19456, 20480, 21504, 22528, 23552, 24576, 25600, 26624,
            27648, 28672, 29696, 30720] : List Int))) := by
  rw [validate_config_cpu_mem, error_or_ok_isOk_iff, ← cpu_memory_table_iff cpu memory,
    not_and_or]

/-- Claim C3 witness: `cpu=256, memory=4096` fails validation and
`cpu=256, memory=1024` passes. -/
theorem fargate_cpu_memory_validation_witness :
    (validate_config { cpu := 256, memory := 4096 }).isOk = false ∧
    (validate_config { cpu := 256, memory := 1024 }).isOk = true := by
  constructor
  · exact (fargate_cpu_memory_validation 256 4096).mpr (by decide)
  · have h := fargate_cpu_memory_validation 256 1024
    have hne : ¬ ((validate_config { cpu := 256, memory := 1024 }).isOk = false) :=
      fun hf => (by decide :
        ¬ ¬ (((256 : Int) = 256 ∧ (1024 : Int) ∈ ([512, 1024, 2048] : List Int)) ∨
          ((256 : Int) = 512 ∧ (1024 : Int) ∈ ([1024, 2048, 3072, 4096] : List Int)) ∨
          ((256 : Int) = 1024 ∧ (1024 : Int) ∈
            ([2048, 3072, 4096, 5120, 6144, 7168, 8192] : List Int)) ∨
          ((256 : Int) = 2048 ∧ (1024 : Int) ∈ ([4096, 5120, 6144, 7168, 8192, 9216, 10240,
            11264, 12288, 13312, 14336, 15360, 16384] : List Int)) ∨
          ((256 : Int) = 4096 ∧ (1024 : Int) ∈ ([8192, 9216, 10240, 11264, 12288, 13312,
            14336, 15360, 16384, 17408, 18432, 19456, 20480, 21504, 22528, 23552, 24576,
            25600, 26624, 27648, 28672, 29696, 30720] : List Int)))) (h.mp hf)
    revert hne
    cases (validate_config { cpu := 256, memory := 1024 }).isOk <;> simp

/-- Claim C4. Every port mapping emitted by `build_port_mappings` (the
primary port and every `additional_ports` entry) has host port equal to
its container port under `awsvpc`, `host` and `none` network modes, and
host port `0` under `bridge`. -/
theorem port_mapping_host_port_policy (main_port : Option Int)
    (additional_ports : List (List (String × Int))) (app_protocol network_mode : String)
    (pm : PortMapping)
    (hpm : pm ∈ build_port_mappings main_port additional_ports app_protocol network_mode) :
    ((network_mode = "awsvpc" ∨ network_mode = "host" ∨ network_mode = "none") →
      pm.hostPort = pm.containerPort) ∧
    (network_mode = "bridge" → pm.hostPort = 0) := by
  unfold build_port_mappings at hpm
  dsimp only at hpm
  rcases List.mem_append.mp hpm with h | h
  · cases main_port with
    | none => simp at h
    | some p =>
      dsimp only at h
      by_cases hp : p ≠ 0
      · rw [if_pos hp] at h
        rcases List.mem_singleton.mp h with rfl
        constructor
        · rintro (rfl | rfl | rfl) <;> simp
        · rintro rfl; simp
      · rw [if_neg hp] at h
        simp at h
  · simp only [List.mem_flatten, List.mem_map] at h
    obtain ⟨l, ⟨d, _, rfl⟩, hpml⟩ := h
    obtain ⟨np, _, rfl⟩ := List.mem_map.mp hpml
    constructor
    · rintro (rfl | rfl | rfl) <;> simp
    · rintro rfl; simp

/-- Claim C4 witness: with `port=8080` the bridge-mode mapping has host
port `0` and the awsvpc-mode mapping has host port `8080`. -/
theorem port_mapping_host_port_policy_witness :
    (({ name := "default", containerPort := 8080, hostPort := 0, protocol := "tcp",
        appProtocol := some "http" } : PortMapping) ∈
      build_port_mappings (some 8080) [] "http" "bridge") ∧
    (({ name := "default", containerPort := 8080, hostPort := 8080, protocol := "tcp",
        appProtocol := some "http" } : PortMapping) ∈
      build_port_mappings (some 8080) [] "http" "awsvpc") ∧
    ({ name := "default", containerPort := 8080, hostPort := 0, protocol := "tcp",
       appProtocol := some "http" } : PortMapping).hostPort = 0 ∧
    ({ name := "default", containerPort := 8080, hostPort := 8080, protocol := "tcp",
       appProtocol := some "http" } : PortMapping).hostPort =
      ({ name := "default", containerPort := 8080, hostPort := 8080, protocol := "tcp",
         appProtocol := some "http" } : PortMapping).containerPort := by
  refine ⟨by decide, by decide, ?_, ?_⟩
  · exact (port_mapping_host_port_policy (some 8080) [] "http" "bridge" _ (by decide)).2 rfl
  · exact (port_mapping_host_port_policy (some 8080) [] "http" "awsvpc" _ (by decide)).1
      (Or.inl rfl)

/-- Claim C5. For a valid launch type (and the other fields at their valid
defaults), `validate_config` fails exactly when the lowercased network
mode is outside `{awsvpc, bridge, host, none}` or the launch type is
FARGATE while the network mode differs from `awsvpc`. -/
theorem network_mode_launch_type_validation (lt nm : String)
    (h : pyUpper lt = "FARGATE" ∨ pyUpper lt = "EC2") :
    (validate_config { launch_type := lt, network_mode := nm }).isOk = false ↔
      (pyLower nm ∉ (["awsvpc", "bridge", "host", "none"] : List String) ∨
       (pyUpper lt = "FARGATE" ∧ pyLower nm ≠ "awsvpc")) := by
  unfold validate_config
  dsimp only
  rw [if_neg (show ¬ (pyUpper lt ≠ "FARGATE" ∧ pyUpper lt ≠ "EC2") by
    rcases h with h | h <;> simp [h])]
  by_cases h2 : pyLower nm ∉ (["awsvpc", "bridge", "host", "none"] : List String)
  · rw [if_pos h2]
    simp [Except.isOk, Except.toBool, h2]
  · rw [if_neg h2]
    by_cases h3 : pyUpper lt = "FARGATE" ∧ pyLower nm ≠ "awsvpc"
    · rw [if_pos h3]
      simp [Except.isOk, Except.toBool, h3]
    · rw [if_neg h3]
      by_cases h4 : pyUpper lt = "FARGATE"
      · rw [if_pos h4, if_neg (by decide), if_neg (by decide)]
        simp only [validate_secrets_envs, Except.isOk, Except.toBool]
        constructor
        · intro hfalse; cases hfalse
        · intro hd; exact absurd hd (by tauto)
      · rw [if_neg h4, if_neg (by decide), if_neg (by decide)]
        simp only [validate_secrets_envs, Except.isOk, Except.toBool]
        constructor
        · intro hfalse; cases hfalse
        · intro hd; exact absurd hd (by tauto)

/-- Claim C5 witness: `launch_type=FARGATE, network_mode=bridge` fails and
`launch_type=EC2, network_mode=bridge` passes. -/
theorem network_mode_launch_type_validation_witness :
    (validate_config { launch_type := "FARGATE", network_mode := "bridge" }).isOk = false ∧
    (validate_config { launch_type := "EC2", network_mode := "bridge" }).isOk = true := by
  constructor
  · exact (network_mode_launch_type_validation "FARGATE" "bridge"
      (Or.inl (by decide))).mpr (Or.inr (by decide))
  · have h := network_mode_launch_type_validation "EC2" "bridge" (Or.inr (by decide))
    have hne : ¬ ((validate_config
        { launch_type := "EC2", network_mode := "bridge" }).isOk = false) :=
      fun hf => (by decide :
        ¬ (pyLower "bridge" ∉ (["awsvpc", "bridge", "host", "none"] : List String) ∨
           (pyUpper "EC2" = "FARGATE" ∧ pyLower "bridge" ≠ "awsvpc"))) (h.mp hf)
    revert hne
    cases (validate_config { launch_type := "EC2", network_mode := "bridge" }).isOk <;> simp

/-- Claim C6. `parse_image_parts` behaves exactly as the spec describes
(registry stripping by the dot-in-first-segment heuristic, then splitting
on the first colon with a supplied tag winning), and on the spec's
example it returns `("myapp", "v2")`. -/
theorem parse_image_parts_meets_spec :
    (∀ image_name tag, parse_image_parts image_name tag =
      parse_image_parts_spec image_name tag) ∧
    parse_image_parts "123456789012.dkr.ecr.us-east-1.amazonaws.com/myapp:v2" "" =
      ("myapp", "v2") := by
  constructor
  · intro im tag
    unfold parse_image_parts parse_image_parts_spec
    dsimp only
    split
    · split
      · split <;> rfl
      · rfl
    · split
      · split <;> rfl
      · rfl
  · rfl

/-- Claim C7. With non-empty `writable_dirs`, the generated task
definition carries one volume per directory entry, named by stripping
leading/trailing slashes, replacing internal slashes with hyphens and
prefixing `writable-` (after the shared secret-files volume when that is
present), and every container definition receives one appended mount
point per directory referencing that volume with the original path. -/
theorem writable_dirs_volumes_and_mounts (oracle : SecretOracle) (config : Config)
    (cluster_name aws_region registry container_registry image_name tag service_name : String)
    (td : TaskDefinition)
    (h : generate_task_definition oracle config cluster_name aws_region registry
      container_registry image_name tag service_name = .ok td)
    (hwd : config.writable_dirs ≠ []) :
    td.volumes = some
      ((if config.secret_files != [] then [({ name := "shared-volume" } : Volume)] else []) ++
        config.writable_dirs.map (fun dir_path =>
          ({ name := writable_vol_name dir_path } : Volume))) ∧
    (∀ c ∈ td.containerDefinitions, ∃ prior,
      c.mountPoints = some (prior ++ config.writable_dirs.map (fun dir_path =>
        ({ sourceVolume := writable_vol_name dir_path,
           containerPath := dir_path } : MountPoint)))) ∧
    writable_vol_name "/tmp" = "writable-tmp" ∧
    writable_vol_name "/var/run" = "writable-var-run" := by
  unfold generate_task_definition at h
  dsimp only at h
  split at h
  · cases h
  · split at h
    · cases h
    · injection h with h
      subst h
      refine ⟨?_, ?_, by decide, by decide⟩
      · dsimp only
        have hvols : ((if config.secret_files != [] then
              [({ name := "shared-volume" } : Volume)] else []) ++
            config.writable_dirs.map (fun dir_path =>
              ({ name := writable_vol_name dir_path } : Volume))) ≠ [] := by
          intro hcontra
          rcases List.append_eq_nil.mp hcontra with ⟨_, hmap⟩
          exact hwd (List.map_eq_nil_iff.mp hmap)
        rw [if_pos hvols]
      · dsimp only
        rw [if_pos hwd]
        intro c hc
        obtain ⟨c0, hc0, rfl⟩ := List.mem_map.mp hc
        exact ⟨c0.mountPoints.getD [], rfl⟩

/-- Claim C7 witness: `writable_dirs = ["/tmp", "/var/run"]` produces the
volumes `writable-tmp` and `writable-var-run`. -/
theorem writable_dirs_volumes_and_mounts_witness :
    ((generate_task_definition demoOracle demoWdCfg "c" "r" "reg" "creg" "im" "v1"
        "s").toOption.getD emptyTaskDefinition).volumes =
      some [{ name := "writable-tmp" }, { name := "writable-var-run" }] := by
  refine ((writable_dirs_volumes_and_mounts demoOracle demoWdCfg "c" "r" "reg" "creg" "im"
    "v1" "s" _ rfl (by decide)).1).trans ?_
  decide

/-- Claim C8. In every successfully generated task definition, the
container named `app` carries exactly the flattening, in input order, of
the `envs` sequence with each value stringified; nothing de-duplicates
repeated variable names. -/
theorem app_environment_is_flattened_envs (oracle : SecretOracle) (config : Config)
    (cluster_name aws_region registry container_registry image_name tag service_name : String)
    (td : TaskDefinition)
    (h : generate_task_definition oracle config cluster_name aws_region registry
      container_registry image_name tag service_name = .ok td) :
    ∀ c ∈ td.containerDefinitions, c.name = "app" →
      c.environment = some ((config.envs.map (fun env_var =>
        env_var.map (fun kv => (kv.1, pyStr kv.2)))).flatten) := by
  unfold generate_task_definition at h
  dsimp only at h
  split at h
  · cases h
  · split at h
    · cases h
    · injection h with h
      subst h
      dsimp only
      rename_i x1 secrets heqs x2 app heqa
      have happ_env : app.environment = some ((config.envs.map (fun env_var =>
          env_var.map (fun kv => (kv.1, pyStr kv.2)))).flatten) := by
        unfold build_app_container at heqa
        split at heqa
        · cases heqa
        · injection heqa with h2
          rw [← h2]
      cases hoc : config.otel_collector <;> dsimp only
      all_goals
        intro c hc hcname
        obtain ⟨c0, hc0, hname, henv⟩ := mem_passes _ _ _ _ hc
        rw [henv]
        rw [hname] at hcname
        simp only [List.append_assoc, List.mem_append, List.mem_singleton] at hc0
        rcases hc0 with hini | (rfl | rest)
        · rw [init_containers_name _ _ _ _ _ _ hini] at hcname
          exact absurd hcname (by decide)
        · exact happ_env
        · rcases rest with hfl | hot
          · rw [mem_ite_nil _ _ _ hfl, fluent_bit_name] at hcname
            exact absurd hcname (by decide)
          · first
            | (rw [hot, otel_name] at hcname
               exact absurd hcname (by decide))
            | simp at hot

/-- Claim C8 witness: two `envs` entries with the same key `A` both appear
in the app container's environment, in input order and stringified. -/
theorem app_environment_is_flattened_envs_witness :
    (((generate_task_definition demoOracle demoEnvCfg "c" "r" "reg" "creg" "im" "v1"
        "s").toOption.getD emptyTaskDefinition).containerDefinitions.headD
      emptyContainer).environment = some [("A", "1"), ("A", "2")] := by
  refine (app_environment_is_flattened_envs demoOracle demoEnvCfg "c" "r" "reg" "creg" "im"
    "v1" "s" _ rfl _ (by decide) (by decide)).trans ?_
  decide

/-- Claim C9. `build_linux_parameters` yields no `linuxParameters` block
not only for an absent/empty `linux_parameters` key, but also when every
supplied field is filtered out: a FARGATE config carrying only the
EC2-only `shared_memory_size`/`devices` fields, or only a capabilities
block with empty `add` and `drop`; and whenever it yields none, the app
container has no `linuxParameters` key. -/
theorem linux_parameters_filtered_to_none :
    (∀ launch_type, build_linux_parameters { linux_parameters := none } launch_type
      = .ok none) ∧
    (∀ sms devs, build_linux_parameters
        { linux_parameters := some { shared_memory_size := sms, devices := devs } }
        "FARGATE" = .ok none) ∧
    (∀ launch_type, build_linux_parameters
        { linux_parameters := some { capabilities := some { add := [], drop := [] } } }
        launch_type = .ok none) ∧
    (∀ config image_uri environment secrets health cluster_name app_name aws_region
        use_fluent_bit has_secret_files secrets_files_path network_mode launch_type app,
      build_linux_parameters config launch_type = .ok none →
      build_app_container config image_uri environment secrets health cluster_name app_name
        aws_region use_fluent_bit has_secret_files secrets_files_path network_mode launch_type
        = .ok app →
      app.linuxParameters = none) := by
  refine ⟨fun launch_type => rfl, ?_, fun launch_type => rfl, ?_⟩
  · intro sms devs
    cases sms <;> cases devs <;> rfl
  · intro config image_uri environment secrets health cluster_name app_name aws_region
      use_fluent_bit has_secret_files secrets_files_path network_mode launch_type app
      hlp happ
    unfold build_app_container at happ
    rw [hlp] at happ
    dsimp only at happ
    injection happ with h
    rw [← h]

/-- Claim C9 witness: a FARGATE config whose `linux_parameters` holds only
`shared_memory_size` and a device mapping produces no `linuxParameters`. -/
theorem linux_parameters_filtered_to_none_witness :
    build_linux_parameters
      { linux_parameters :=
          some { shared_memory_size := some 64, devices := [{ host_path := "/dev/fuse" }] } }
      "FARGATE" = .ok none :=
  linux_parameters_filtered_to_none.2.1 (some 64) [{ host_path := "/dev/fuse" }]

/-- Claim C10. With no usable primary port (absent or `0`) and no
`additional_ports`, `build_port_mappings` returns the empty list and the
app container definition carries no `portMappings` key at all. -/
theorem no_ports_no_portMappings_key (config : Config) (image_uri : String)
    (environment : List (String × String)) (secrets : List SecretEntry)
    (health : Option HealthCheckOut) (cluster_name app_name aws_region : String)
    (use_fluent_bit has_secret_files : Bool)
    (secrets_files_path network_mode launch_type : String) (app : ContainerDef)
    (hport : config.port = none ∨ config.port = some 0)
    (hadd : config.additional_ports = [])
    (happ : build_app_container config image_uri environment secrets health cluster_name
      app_name aws_region use_fluent_bit has_secret_files secrets_files_path network_mode
      launch_type = .ok app) :
    build_port_mappings config.port config.additional_ports config.app_protocol network_mode
      = [] ∧
    app.portMappings = none := by
  have hempty : build_port_mappings config.port config.additional_ports config.app_protocol
      network_mode = [] := by
    rcases hport with h | h <;>
      simp [build_port_mappings, h, hadd]
  refine ⟨hempty, ?_⟩
  unfold build_app_container at happ
  cases hlp : build_linux_parameters config launch_type with
  | error e => rw [hlp] at happ; cases happ
  | ok lp =>
    rw [hlp] at happ
    dsimp only at happ
    rw [hempty] at happ
    injection happ with h
    rw [← h]
    rfl

/-- Claim C10 witness: with `port = 0` and no additional ports the
mapping list is empty and the app container has no `portMappings` key. -/
theorem no_ports_no_portMappings_key_witness :
    build_port_mappings (some 0) [] "http" "awsvpc" = [] ∧
    ((build_app_container { port := some 0 } "img" [] [] none "c" "a" "r" false false
        "/etc/secrets" "awsvpc" "FARGATE").toOption.getD emptyContainer).portMappings
      = none :=
  no_ports_no_portMappings_key { port := some 0 } "img" [] [] none "c" "a" "r" false false
    "/etc/secrets" "awsvpc" "FARGATE" _ (Or.inr rfl) rfl rfl

end ECSDeploy
